import Mathlib

/-!
Verification of the SubstratumNode stream handler pool
(`src/node/src/stream_handler_pool.rs`).

The Rust module is shallowly embedded: the actor message handlers and the
reader worker loop become pure Lean functions over explicit state, the TCP
stream becomes a script of read/write results (exactly the shape of the
`TcpStreamWrapperMock` the module's own tests use), and the observable side
effects (messages sent to the pool and the dispatcher, stream shutdowns,
sleeps, WARN/ERROR log lines) become an explicit event trace.  Debug-level
log lines are not modelled.  A Rust panic (`expect`, explicit `panic`,
`unimplemented`) is modelled as `Except.error` carrying the panic message.
-/

namespace SubstratumNode

/-- I/O error kinds, as in `std::io::ErrorKind` (the kinds the module's tests
enumerate). -/
inductive ErrorKind where
  | NotFound | PermissionDenied | ConnectionRefused | ConnectionReset
  | ConnectionAborted | NotConnected | AddrInUse | AddrNotAvailable
  | BrokenPipe | AlreadyExists | WouldBlock | InvalidInput | InvalidData
  | TimedOut | WriteZero | Interrupted | Other | UnexpectedEof
deriving DecidableEq

/-- Modelled from the spec: `sub_lib::utils::indicates_dead_stream` is not
under `src/`; spec section 4.1 fixes it as TRUE exactly on BrokenPipe,
ConnectionRefused, ConnectionReset, ConnectionAborted and TimedOut, which is
also what the module's own tests
(`indicates_dead_stream_identifies_dead_stream_errors` and
`indicates_dead_stream_identifies_non_dead_stream_errors`) assert. -/
def indicates_dead_stream (kind : ErrorKind) : Bool :=
  match kind with
  | .BrokenPipe | .ConnectionRefused | .ConnectionReset
  | .ConnectionAborted | .TimedOut => true
  | _ => false

/-- Modelled from the spec: `sub_lib::utils::indicates_timeout` is not under
`src/`; spec section 4.1 lists the timeout-like kinds as WouldBlock and
TimedOut ("timeout-like kinds (reader only): WouldBlock, TimedOut"). -/
def indicates_timeout (kind : ErrorKind) : Bool :=
  match kind with
  | .WouldBlock | .TimedOut => true
  | _ => false

/-- A peer socket address (IP + port).  Used as the `StreamKey` identifying a
connection within the pool. -/
structure SocketAddr where
  ip : Nat
  port : Nat
deriving DecidableEq

abbrev StreamKey := SocketAddr

/-- `NodeAddr`: an IP address with a list of ports.  `NodeAddr::from
(&SocketAddr)` keeps the IP and the single port; `Into<Vec<SocketAddr>>`
pairs the IP back with each port. -/
structure NodeAddr where
  ip_addr : Nat
  ports : List Nat
deriving DecidableEq

def NodeAddr.fromSocketAddr (sa : SocketAddr) : NodeAddr :=
  { ip_addr := sa.ip, ports := [sa.port] }

def NodeAddr.toSocketAddrs (na : NodeAddr) : List SocketAddr :=
  na.ports.map (fun p => { ip := na.ip_addr, port := p })

/-- Downstream routing targets (`sub_lib::dispatcher::Component`). -/
inductive Component where
  | Neighborhood | Hopper | ProxyServer | ProxyClient
deriving DecidableEq

/-- `sub_lib::dispatcher::InboundClientData`. -/
structure InboundClientData where
  socket_addr : SocketAddr
  origin_port : Option Nat
  component : Component
  last_data : Bool
  data : List Nat
deriving DecidableEq

/-- `sub_lib::dispatcher::Endpoint`. -/
inductive Endpoint where
  | Key (key : List Nat)
  | Ip (addr : Nat)
  | Socket (addr : SocketAddr)
deriving DecidableEq

/-- `sub_lib::stream_handler_pool::TransmitDataMsg`. -/
structure TransmitDataMsg where
  endpoint : Endpoint
  last_data : Bool
  data : List Nat
deriving DecidableEq

/-- `RemoveStreamMsg`. -/
structure RemoveStreamMsg where
  socket_addr : SocketAddr
deriving DecidableEq

/-- Observable effects of the handlers and workers: messages sent to the pool
and to the dispatcher, stream shutdowns, sleeps, and the WARN/ERROR log lines
the properties mention (structured by their format arguments). -/
inductive Event where
  | sleep
  | logWarnReadError (kind : ErrorKind)
  | logErrorCloneRead (kind : ErrorKind)
  | logErrorCloneWrite (kind : ErrorKind)
  | logErrorCannotTransmit (len : Nat) (kind : ErrorKind)
  | logErrorNonexistentStream (len : Nat) (addr : SocketAddr)
  | removeStream (socket_addr : SocketAddr)
  | shutdownBoth
  | ibcd (msg : InboundClientData)
deriving DecidableEq

/-- A framed, unmasked chunk produced by a discriminator. -/
structure UnmaskedChunk where
  component : Component
  chunk : List Nat
deriving DecidableEq

/-- The discriminator capability (spec section 4.2): `add_data` appends raw
bytes and never fails; `take_chunk` yields at most one framed chunk and the
successor state.  The contract that repeated `take_chunk` calls drain the
discriminator in finitely many steps is captured by a measure that every
successful `take_chunk` strictly decreases. -/
structure DiscriminatorModel (σ : Type) where
  add_data : σ → List Nat → σ
  take_chunk : σ → Option (UnmaskedChunk × σ)
  size : σ → Nat
  take_chunk_decreases : ∀ s c s2, take_chunk s = some (c, s2) → size s2 < size s

/-- Drain loop with explicit fuel; `D.size s` units of fuel always suffice
because every successful `take_chunk` strictly decreases the size. -/
def drainFuel {σ : Type} (D : DiscriminatorModel σ) : Nat → σ → List UnmaskedChunk × σ
  | 0, s => ([], s)
  | fuel + 1, s =>
    match D.take_chunk s with
    | none => ([], s)
    | some (c, s2) =>
      let r := drainFuel D fuel s2
      (c :: r.1, r.2)

/-- The `loop { match take_chunk … }` drain of `wrangle_discriminators`: all
currently framed chunks, in emission order, with the final state. -/
def drain {σ : Type} (D : DiscriminatorModel σ) (s : σ) : List UnmaskedChunk × σ :=
  drainFuel D (D.size s) s

/-- A discriminator factory: `make` yields a fresh discriminator (model plus
initial state). -/
structure DiscriminatorFactory (σ : Type) where
  model : DiscriminatorModel σ
  init : σ

/-- One scripted result of `TcpStreamWrapper::read`: either the bytes placed
in the buffer (`Ok(n)` with `buf[..n] = data`) or an I/O error kind. -/
inductive ReadResult where
  | ok (data : List Nat)
  | err (kind : ErrorKind)
deriving DecidableEq

/-- One scripted result of `TcpStreamWrapper::write`. -/
inductive WriteResult where
  | ok (n : Nat)
  | err (kind : ErrorKind)
deriving DecidableEq

/-- A cloned stream handle, scripted the way the module's
`TcpStreamWrapperMock` is: the result `peer_addr` returns and the scripted
outcomes of successive reads and writes. -/
structure ClonedStream where
  peer_addr_result : Except ErrorKind SocketAddr
  read_results : List ReadResult
  write_results : List WriteResult

/-- `StreamReaderReal`: the per-connection reader worker.  The `ibcd_sub` and
`remove_sub` sinks and the logger become the event trace; the source's
`discriminators` vector holds exactly one discriminator (built from
`discriminator_factories[0]`, the "skinny implementation"), modelled as one
model plus its state. -/
structure StreamReaderReal (σ : Type) where
  stream : List ReadResult
  stream_key : StreamKey
  origin_port : Option Nat
  discModel : DiscriminatorModel σ
  discState : σ

def msgNoPeerReader : String :=
  "Internal error: no peer address creating StreamReaderReal"

def msgNoFactories : String :=
  "Internal error: no Discriminator factories!"

def msgNoPeerWriter : String :=
  "Internal error: no peer address preparing StreamWriter"

def msgUnimplemented : String :=
  "not implemented"

def msgCloneScriptExhausted : String :=
  "try_clone script exhausted"

/-- `StreamReaderReal::new`: a `peer_addr` failure panics (`expect`) with
"Internal error: no peer address creating StreamReaderReal"; after that, an
empty factory list panics with "Internal error: no Discriminator
factories!"; otherwise the single discriminator is made from `factories[0]`. -/
def StreamReaderReal.new {σ : Type} (stream : ClonedStream) (origin_port : Option Nat)
    (discriminator_factories : List (DiscriminatorFactory σ)) :
    Except String (StreamReaderReal σ) :=
  match stream.peer_addr_result with
  | .error _ => .error msgNoPeerReader
  | .ok socket_addr =>
    match discriminator_factories with
    | [] => .error msgNoFactories
    | f :: _ =>
      .ok { stream := stream.read_results, stream_key := socket_addr,
            origin_port := origin_port, discModel := f.model, discState := f.init }

/-- `StreamReaderReal::wrangle_discriminators`: feed `buf[..length]` to the
discriminator with `add_data`, then drain it with repeated `take_chunk`
calls, producing one non-terminal `InboundClientData` per framed chunk, in
drain order.  Returns the updated discriminator state and the messages sent. -/
def wrangleDiscriminators {σ : Type} (D : DiscriminatorModel σ) (stream_key : StreamKey)
    (origin_port : Option Nat) (s : σ) (data : List Nat) : σ × List InboundClientData :=
  let r := drain D (D.add_data s data)
  (r.2, r.1.map (fun c =>
    { socket_addr := stream_key, origin_port := origin_port,
      component := c.component, last_data := false, data := c.chunk }))

/-- The read loop of `StreamReaderReal::handle_traffic`, as a function of the
discriminator state and the remaining scripted reads.  `Ok(0)` sleeps 100 ms
and continues; `Ok(n > 0)` wrangles the discriminator; an error with a
timeout-like kind sleeps 100 ms and continues; an error with a dead-stream
kind sends `RemoveStream`, shuts the stream down (best effort), sends the
terminal `InboundClientData` and breaks out of the loop; any other error
logs a warning and continues. -/
def handleTrafficLoop {σ : Type} (D : DiscriminatorModel σ) (stream_key : StreamKey)
    (origin_port : Option Nat) : σ → List ReadResult → List Event
  | _, [] => []
  | s, .ok data :: rest =>
    if data.isEmpty then
      Event.sleep :: handleTrafficLoop D stream_key origin_port s rest
    else
      let r := wrangleDiscriminators D stream_key origin_port s data
      r.2.map Event.ibcd ++ handleTrafficLoop D stream_key origin_port r.1 rest
  | s, .err kind :: rest =>
    if indicates_timeout kind then
      Event.sleep :: handleTrafficLoop D stream_key origin_port s rest
    else if indicates_dead_stream kind then
      [Event.removeStream stream_key, Event.shutdownBoth,
       Event.ibcd { socket_addr := stream_key, origin_port := origin_port,
                    component := Component.ProxyServer, last_data := true, data := [] }]
    else
      Event.logWarnReadError kind :: handleTrafficLoop D stream_key origin_port s rest

/-- `StreamReaderReal::handle_traffic` (the read loop; the initial
`set_read_timeout(None)` call and the local-port lookup are configuration and
debug logging, scripted `Ok` in every test, and are not modelled). -/
def StreamReaderReal.handle_traffic {σ : Type} (r : StreamReaderReal σ) : List Event :=
  handleTrafficLoop r.discModel r.stream_key r.origin_port r.discState r.stream

/-- `StreamWriterReal`: the write script of its owned stream plus its
`StreamKey` (captured from `peer_addr` at construction). -/
structure StreamWriterReal where
  stream : List WriteResult
  stream_key : StreamKey
deriving DecidableEq

/-- `StreamWriterReal::transmit`: write once; on `Ok(size)` return it with no
side effects; on an error with a dead-stream kind shut the stream down (best
effort, result ignored), send `RemoveStream` to the pool, log the ERROR and
return the error; on any other error just log the ERROR ("Cannot transmit N
bytes: …") and return the error.  Returns the writer with its script
advanced, the emitted events, and the Rust return value.  (An exhausted
script cannot occur in any property below; it is modelled as an `Other`
error.) -/
def StreamWriterReal.transmit (w : StreamWriterReal) (data : List Nat) :
    StreamWriterReal × List Event × Except ErrorKind Nat :=
  match w.stream with
  | [] => (w, [], Except.error ErrorKind.Other)
  | r :: rest =>
    let w2 : StreamWriterReal := { stream := rest, stream_key := w.stream_key }
    match r with
    | .ok n => (w2, [], Except.ok n)
    | .err kind =>
      if indicates_dead_stream kind then
        (w2, [Event.shutdownBoth, Event.removeStream w.stream_key,
              Event.logErrorCannotTransmit data.length kind], Except.error kind)
      else
        (w2, [Event.logErrorCannotTransmit data.length kind], Except.error kind)

/-- The pool's writer registry (`stream_writers: HashMap<SocketAddr,
Box<StreamWriter>>`), modelled as an association list with unique keys. -/
structure StreamHandlerPool where
  stream_writers : List (SocketAddr × StreamWriterReal)
deriving DecidableEq

def lookupWriter : List (SocketAddr × StreamWriterReal) → SocketAddr → Option StreamWriterReal
  | [], _ => none
  | (k, w) :: rest, sa => if k = sa then some w else lookupWriter rest sa

/-- `HashMap::insert`: silently overwrites any prior entry with the key. -/
def insertWriter : List (SocketAddr × StreamWriterReal) → SocketAddr → StreamWriterReal →
    List (SocketAddr × StreamWriterReal)
  | [], sa, w => [(sa, w)]
  | (k, w0) :: rest, sa, w =>
    if k = sa then (sa, w) :: rest else (k, w0) :: insertWriter rest sa w

def removeWriter : List (SocketAddr × StreamWriterReal) → SocketAddr →
    List (SocketAddr × StreamWriterReal)
  | [], _ => []
  | (k, w0) :: rest, sa =>
    if k = sa then rest else (k, w0) :: removeWriter rest sa

/-- `Handler<RemoveStreamMsg>`: remove the entry if present; absence is
ignored (`.is_some()` discarded). -/
def handleRemove (pool : StreamHandlerPool) (msg : RemoveStreamMsg) : StreamHandlerPool :=
  { stream_writers := removeWriter pool.stream_writers msg.socket_addr }

/-- `Handler<TransmitDataMsg>`.  `Endpoint::Key` and `Endpoint::Ip` hit
`unimplemented!()`, a panic (modelled as `Except.error`); `Endpoint::Socket`
goes through `NodeAddr::from` and back to a socket-address list whose first
element is taken (`remove(0)`, which panics on an empty vector).  If a writer
is registered under that address, `transmit` runs on it (result discarded)
and, when `last_data` is set, `shutdown(Both)` follows (result discarded);
otherwise the pool logs the "Cannot transmit N bytes to addr: nonexistent
stream" ERROR. -/
def handleTransmit (pool : StreamHandlerPool) (msg : TransmitDataMsg) :
    Except String (StreamHandlerPool × List Event) :=
  match msg.endpoint with
  | .Key _ => Except.error msgUnimplemented
  | .Ip _ => Except.error msgUnimplemented
  | .Socket socket_addr0 =>
    let node_addr := NodeAddr.fromSocketAddr socket_addr0
    match NodeAddr.toSocketAddrs node_addr with
    | [] => Except.error "removal index (is 0) should be < len (is 0)"
    | socket_addr :: _ =>
      match lookupWriter pool.stream_writers socket_addr with
      | some w =>
        let r := w.transmit msg.data
        let evs := if msg.last_data then r.2.1 ++ [Event.shutdownBoth] else r.2.1
        Except.ok ({ stream_writers := insertWriter pool.stream_writers socket_addr r.1 }, evs)
      | none =>
        Except.ok (pool, [Event.logErrorNonexistentStream msg.data.length socket_addr])

/-- `AddStreamMsg`: the incoming stream is scripted by its `try_clone`
results, the shape of `TcpStreamWrapperMock` in the module's tests. -/
structure AddStreamMsg (σ : Type) where
  try_clone_results : List (Except ErrorKind ClonedStream)
  origin_port : Option Nat
  discriminator_factories : List (DiscriminatorFactory σ)

/-- Outcome of `Handler<AddStreamMsg>`: what the pool handler itself does
(`Except.error` being a panic of the handler thread), and, when a reader
thread was spawned, the outcome of constructing the `StreamReaderReal` on
that thread (`none` when no thread was spawned). -/
structure AddOutcome (σ : Type) where
  pool : Except String (StreamHandlerPool × List Event)
  spawned : Option (Except String (StreamReaderReal σ))

/-- `StreamHandlerPool::set_up_stream_writer`: a `peer_addr` failure panics
(`expect`) with "Internal error: no peer address preparing StreamWriter"
(`StreamWriterReal::new` repeats the same successful `peer_addr` call);
otherwise the writer is inserted under its peer address. -/
def setUpStreamWriter (pool : StreamHandlerPool) (write_stream : ClonedStream) :
    Except String StreamHandlerPool :=
  match write_stream.peer_addr_result with
  | .error _ => Except.error msgNoPeerWriter
  | .ok socket_addr =>
    let stream_writer : StreamWriterReal :=
      { stream := write_stream.write_results, stream_key := socket_addr }
    Except.ok { stream_writers := insertWriter pool.stream_writers socket_addr stream_writer }

/-- `Handler<AddStreamMsg>`: `try_clone()` is called twice on the incoming
stream; each failure is logged at ERROR and aborts the Add (`return`).  With
both clones in hand the writer is set up on the pool thread and the reader
construction is spawned on its own thread. -/
def handleAdd {σ : Type} (pool : StreamHandlerPool) (msg : AddStreamMsg σ) : AddOutcome σ :=
  match msg.try_clone_results with
  | .error e :: _ =>
    { pool := Except.ok (pool, [Event.logErrorCloneRead e]), spawned := none }
  | .ok _ :: .error e :: _ =>
    { pool := Except.ok (pool, [Event.logErrorCloneWrite e]), spawned := none }
  | .ok read_stream :: .ok write_stream :: _ =>
    (match setUpStreamWriter pool write_stream with
     | .error pm => { pool := Except.error pm, spawned := none }
     | .ok pool2 =>
       { pool := Except.ok (pool2, []),
         spawned := some (StreamReaderReal.new read_stream msg.origin_port
           msg.discriminator_factories) })
  | _ => { pool := Except.error msgCloneScriptExhausted, spawned := none }

/-- The `InboundClientData` messages contained in an event trace, in order. -/
def ibcdMsgs : List Event → List InboundClientData
  | [] => []
  | Event.ibcd m :: rest => m :: ibcdMsgs rest
  | _ :: rest => ibcdMsgs rest

/-- The discriminator's outputs over a sequence of byte chunks, threading its
state: each nonempty chunk is fed with `add_data` and the framed chunks are
drained, in order; an empty chunk (an `Ok(0)` read) feeds nothing. -/
def discOutputs {σ : Type} (D : DiscriminatorModel σ) : σ → List (List Nat) → List UnmaskedChunk
  | _, [] => []
  | s, b :: bs =>
    if b.isEmpty then discOutputs D s bs
    else
      let r := drain D (D.add_data s b)
      r.1 ++ discOutputs D r.2 bs

/-- A concrete discriminator used to instantiate the theorems: it buffers
bytes and frames the whole buffer as a single `ProxyServer` chunk. -/
def passThroughDisc : DiscriminatorModel (List Nat) where
  add_data := fun s data => s ++ data
  take_chunk := fun s =>
    match s with
    | [] => none
    | a :: t => some ({ component := Component.ProxyServer, chunk := a :: t }, [])
  size := List.length
  take_chunk_decreases := by
    intro s c s2 h
    cases s with
    | nil => exact absurd h (by simp)
    | cons a t =>
      simp only [Option.some.injEq, Prod.mk.injEq] at h
      rw [← h.2]
      simp

/-- A concrete stream whose `peer_addr` fails, for instantiating theorems. -/
def peerlessStream : ClonedStream :=
  { peer_addr_result := Except.error ErrorKind.NotConnected,
    read_results := [], write_results := [] }

/-- A concrete stream with a working `peer_addr`, for instantiating theorems. -/
def goodStream : ClonedStream :=
  { peer_addr_result := Except.ok { ip := 5, port := 6 },
    read_results := [], write_results := [] }

theorem ibcdMsgs_append (xs ys : List Event) :
    ibcdMsgs (xs ++ ys) = ibcdMsgs xs ++ ibcdMsgs ys := by
  induction xs with
  | nil => rfl
  | cons e xs ih => cases e <;> simp [ibcdMsgs, ih]

theorem ibcdMsgs_map_ibcd (ms : List InboundClientData) :
    ibcdMsgs (ms.map Event.ibcd) = ms := by
  induction ms with
  | nil => rfl
  | cons m ms ih => simp [ibcdMsgs, ih]

/-- Core induction for C2: over a script of `Ok` reads, the dispatcher
messages are exactly the discriminator's framed chunks, wrapped as
non-terminal `InboundClientData` for the reader's StreamKey and origin port. -/
theorem ibcdMsgs_handleTrafficLoop_ok {σ : Type} (D : DiscriminatorModel σ)
    (key : StreamKey) (op : Option Nat) :
    ∀ (bs : List (List Nat)) (s : σ),
      ibcdMsgs (handleTrafficLoop D key op s (bs.map ReadResult.ok)) =
        (discOutputs D s bs).map (fun c =>
          { socket_addr := key, origin_port := op, component := c.component,
            last_data := false, data := c.chunk }) := by
  intro bs
  induction bs with
  | nil => intro s; rfl
  | cons b bs ih =>
    intro s
    cases hb : b.isEmpty with
    | true => simp [handleTrafficLoop, discOutputs, hb, ibcdMsgs, ih]
    | false =>
      simp [handleTrafficLoop, discOutputs, hb, wrangleDiscriminators,
        ibcdMsgs_append, ibcdMsgs_map_ibcd, ih]
      rw [← List.map_map, ibcdMsgs_map_ibcd]

/-- C1 (amended): when a read returns an error whose kind is a dead-stream
kind and not a timeout-like kind (BrokenPipe, ConnectionRefused,
ConnectionReset, ConnectionAborted — every dead-stream kind except TimedOut),
the reader worker performs exactly the terminal sequence — one `RemoveStream`
carrying its StreamKey, a best-effort `shutdown(Both)`, one
`InboundClientData` with its StreamKey, its origin port, component
`ProxyServer`, `last_data = true` and empty data — and exits its loop, so no
further reads occur. -/
theorem c1_dead_stream_teardown {σ : Type} (D : DiscriminatorModel σ)
    (key : StreamKey) (op : Option Nat) (s : σ) (kind : ErrorKind)
    (rest : List ReadResult)
    (hdead : indicates_dead_stream kind = true)
    (htimeout : indicates_timeout kind = false) :
    StreamReaderReal.handle_traffic
        { stream := ReadResult.err kind :: rest, stream_key := key,
          origin_port := op, discModel := D, discState := s } =
      [Event.removeStream key, Event.shutdownBoth,
       Event.ibcd { socket_addr := key, origin_port := op,
                    component := Component.ProxyServer, last_data := true, data := [] }] := by
  simp [StreamReaderReal.handle_traffic, handleTrafficLoop, htimeout, hdead]

/-- C1 witness: a BrokenPipe read error on a concrete reader whose script has
a further read, which is never reached. -/
theorem c1_dead_stream_teardown_witness :
    StreamReaderReal.handle_traffic
        { stream := [ReadResult.err ErrorKind.BrokenPipe, ReadResult.ok [1, 2, 3]],
          stream_key := { ip := 16909060, port := 80 }, origin_port := some 8081,
          discModel := passThroughDisc, discState := [] } =
      [Event.removeStream { ip := 16909060, port := 80 }, Event.shutdownBoth,
       Event.ibcd { socket_addr := { ip := 16909060, port := 80 }, origin_port := some 8081,
                    component := Component.ProxyServer, last_data := true, data := [] }] :=
  c1_dead_stream_teardown passThroughDisc { ip := 16909060, port := 80 } (some 8081) []
    ErrorKind.BrokenPipe [ReadResult.ok [1, 2, 3]] (by decide) (by decide)

/-- C1 counterexample: TimedOut is a dead-stream kind, yet on a TimedOut read
error the reader sends no `RemoveStream` at all and does not exit its loop —
it sleeps, and the next read is still processed (producing a further,
non-terminal, dispatcher message), contradicting the claimed terminal
sequence. -/
theorem c1_counterexample :
    indicates_dead_stream ErrorKind.TimedOut = true ∧
    StreamReaderReal.handle_traffic
        { stream := [ReadResult.err ErrorKind.TimedOut, ReadResult.ok [7]],
          stream_key := { ip := 167772161, port := 443 }, origin_port := none,
          discModel := passThroughDisc, discState := [] } =
      [Event.sleep,
       Event.ibcd { socket_addr := { ip := 167772161, port := 443 }, origin_port := none,
                    component := Component.ProxyServer, last_data := false, data := [7] }] ∧
    Event.removeStream { ip := 167772161, port := 443 } ∉
      StreamReaderReal.handle_traffic
        { stream := [ReadResult.err ErrorKind.TimedOut, ReadResult.ok [7]],
          stream_key := { ip := 167772161, port := 443 }, origin_port := none,
          discModel := passThroughDisc, discState := [] } := by
  refine ⟨rfl, rfl, by decide⟩

/-- C2: over scripted reads `Ok(b)` the reader feeds each nonempty `b` into
its single discriminator and drains it by repeated `take_chunk`; the
dispatcher receives exactly one `InboundClientData` per framed chunk, in
drain order, with its StreamKey, its origin port, the chunk's component,
`last_data = false` and the chunk's bytes; hence the concatenation of the
`data` fields of the non-terminal messages for the StreamKey equals the
concatenation of the discriminator's outputs over the bytes read. -/
theorem c2_discriminator_framing {σ : Type} (D : DiscriminatorModel σ)
    (key : StreamKey) (op : Option Nat) (s : σ) (bs : List (List Nat)) :
    ibcdMsgs (StreamReaderReal.handle_traffic
        { stream := bs.map ReadResult.ok, stream_key := key, origin_port := op,
          discModel := D, discState := s }) =
      (discOutputs D s bs).map (fun c =>
        { socket_addr := key, origin_port := op, component := c.component,
          last_data := false, data := c.chunk }) ∧
    ((ibcdMsgs (StreamReaderReal.handle_traffic
        { stream := bs.map ReadResult.ok, stream_key := key, origin_port := op,
          discModel := D, discState := s })).map InboundClientData.data).flatten =
      ((discOutputs D s bs).map UnmaskedChunk.chunk).flatten := by
  have h1 := ibcdMsgs_handleTrafficLoop_ok D key op bs s
  refine ⟨h1, ?_⟩
  simp only [StreamReaderReal.handle_traffic] at h1 ⊢
  rw [h1, List.map_map]
  rfl

/-- C3 (amended): a read error of kind TimedOut is classified as timeout-like
(the timeout check runs before the dead-stream check), so the reader sleeps
100 ms and continues its loop with unchanged state; the terminal teardown is
not performed for TimedOut. -/
theorem c3_timedout_sleeps_and_continues {σ : Type} (D : DiscriminatorModel σ)
    (key : StreamKey) (op : Option Nat) (s : σ) (rest : List ReadResult) :
    StreamReaderReal.handle_traffic
        { stream := ReadResult.err ErrorKind.TimedOut :: rest, stream_key := key,
          origin_port := op, discModel := D, discState := s } =
      Event.sleep :: StreamReaderReal.handle_traffic
        { stream := rest, stream_key := key, origin_port := op,
          discModel := D, discState := s } := rfl

/-- C3 counterexample: on a TimedOut read error a concrete reader produces
only a sleep, which is not the terminal teardown sequence. -/
theorem c3_counterexample :
    StreamReaderReal.handle_traffic
        { stream := [ReadResult.err ErrorKind.TimedOut],
          stream_key := { ip := 2130706433, port := 9000 }, origin_port := some 80,
          discModel := passThroughDisc, discState := [] } = [Event.sleep] ∧
    [Event.sleep] ≠
      [Event.removeStream { ip := 2130706433, port := 9000 }, Event.shutdownBoth,
       Event.ibcd { socket_addr := { ip := 2130706433, port := 9000 }, origin_port := some 80,
                    component := Component.ProxyServer, last_data := true, data := [] }] := by
  exact ⟨rfl, by decide⟩

/-- C4: `StreamWriter.transmit` returns `Ok(size)` on a successful write with
no `RemoveStream` sent; on a write error with a dead-stream kind it shuts the
stream down (best effort), sends `RemoveStream` with its StreamKey, logs and
returns the error; on a write error of any other kind it only logs and
returns the error, with no `RemoveStream` and no shutdown. -/
theorem c4_stream_writer_transmit (key : StreamKey) (rest : List WriteResult)
    (data : List Nat) (n : Nat) (kind : ErrorKind) :
    (StreamWriterReal.transmit { stream := WriteResult.ok n :: rest, stream_key := key } data =
      ({ stream := rest, stream_key := key }, [], Except.ok n)) ∧
    (indicates_dead_stream kind = true →
      StreamWriterReal.transmit { stream := WriteResult.err kind :: rest, stream_key := key }
          data =
        ({ stream := rest, stream_key := key },
         [Event.shutdownBoth, Event.removeStream key,
          Event.logErrorCannotTransmit data.length kind], Except.error kind)) ∧
    (indicates_dead_stream kind = false →
      StreamWriterReal.transmit { stream := WriteResult.err kind :: rest, stream_key := key }
          data =
        ({ stream := rest, stream_key := key },
         [Event.logErrorCannotTransmit data.length kind], Except.error kind)) := by
  refine ⟨rfl, ?_, ?_⟩ <;> intro h <;> simp [StreamWriterReal.transmit, h]

/-- C4 witness: a successful 2-byte write, and a BrokenPipe write error with
its shutdown, removal and ERROR log, on concrete writers. -/
theorem c4_stream_writer_transmit_witness :
    (StreamWriterReal.transmit
        { stream := [WriteResult.ok 2], stream_key := { ip := 16909060, port := 5673 } }
        [18, 52] =
      ({ stream := [], stream_key := { ip := 16909060, port := 5673 } }, [], Except.ok 2)) ∧
    (StreamWriterReal.transmit
        { stream := [WriteResult.err ErrorKind.BrokenPipe],
          stream_key := { ip := 16909060, port := 5679 } } [18, 52] =
      ({ stream := [], stream_key := { ip := 16909060, port := 5679 } },
       [Event.shutdownBoth, Event.removeStream { ip := 16909060, port := 5679 },
        Event.logErrorCannotTransmit 2 ErrorKind.BrokenPipe],
       Except.error ErrorKind.BrokenPipe)) :=
  ⟨(c4_stream_writer_transmit { ip := 16909060, port := 5673 } [] [18, 52] 2
      ErrorKind.BrokenPipe).1,
   (c4_stream_writer_transmit { ip := 16909060, port := 5679 } [] [18, 52] 2
      ErrorKind.BrokenPipe).2.1 (by decide)⟩

/-- C5: a `TransmitData` whose resolved socket address has no writer in the
pool's map produces exactly one ERROR log carrying the data length and the
address ("Cannot transmit N bytes to addr: nonexistent stream"), leaves the
writer map unchanged, and attempts no write and no shutdown. -/
theorem c5_transmit_nonexistent_stream (pool : StreamHandlerPool) (sa : SocketAddr)
    (last_data : Bool) (data : List Nat)
    (h : lookupWriter pool.stream_writers sa = none) :
    handleTransmit pool
        { endpoint := Endpoint.Socket sa, last_data := last_data, data := data } =
      Except.ok (pool, [Event.logErrorNonexistentStream data.length sa]) := by
  obtain ⟨ip, port⟩ := sa
  simp [handleTransmit, NodeAddr.fromSocketAddr, NodeAddr.toSocketAddrs, h]

/-- C5 witness: transmitting two bytes to an address unknown to an empty
pool. -/
theorem c5_transmit_nonexistent_stream_witness :
    handleTransmit { stream_writers := [] }
        { endpoint := Endpoint.Socket { ip := 16909060, port := 5677 }, last_data := false,
          data := [18, 52] } =
      Except.ok ({ stream_writers := [] },
        [Event.logErrorNonexistentStream 2 { ip := 16909060, port := 5677 }]) :=
  c5_transmit_nonexistent_stream { stream_writers := [] } { ip := 16909060, port := 5677 }
    false [18, 52] rfl

/-- C6: only the `Endpoint::Socket` variant of a `TransmitData` is handled;
`Endpoint::Key` and `Endpoint::Ip` hit `unimplemented!()` and the handler
fails fatally instead of transmitting or silently ignoring the event. -/
theorem c6_transmit_non_socket_endpoint_fatal (pool : StreamHandlerPool)
    (k : List Nat) (ipa : Nat) (last_data : Bool) (data : List Nat) :
    handleTransmit pool { endpoint := Endpoint.Key k, last_data := last_data, data := data } =
      Except.error msgUnimplemented ∧
    handleTransmit pool { endpoint := Endpoint.Ip ipa, last_data := last_data, data := data } =
      Except.error msgUnimplemented :=
  ⟨rfl, rfl⟩

/-- C7: `indicates_dead_stream` is TRUE for exactly BrokenPipe,
ConnectionRefused, ConnectionReset, ConnectionAborted and TimedOut, and FALSE
for the thirteen other standard I/O error kinds. -/
theorem c7_indicates_dead_stream_truth_table :
    indicates_dead_stream ErrorKind.BrokenPipe = true ∧
    indicates_dead_stream ErrorKind.ConnectionRefused = true ∧
    indicates_dead_stream ErrorKind.ConnectionReset = true ∧
    indicates_dead_stream ErrorKind.ConnectionAborted = true ∧
    indicates_dead_stream ErrorKind.TimedOut = true ∧
    indicates_dead_stream ErrorKind.NotFound = false ∧
    indicates_dead_stream ErrorKind.PermissionDenied = false ∧
    indicates_dead_stream ErrorKind.NotConnected = false ∧
    indicates_dead_stream ErrorKind.AddrInUse = false ∧
    indicates_dead_stream ErrorKind.AddrNotAvailable = false ∧
    indicates_dead_stream ErrorKind.AlreadyExists = false ∧
    indicates_dead_stream ErrorKind.WouldBlock = false ∧
    indicates_dead_stream ErrorKind.InvalidInput = false ∧
    indicates_dead_stream ErrorKind.InvalidData = false ∧
    indicates_dead_stream ErrorKind.WriteZero = false ∧
    indicates_dead_stream ErrorKind.Interrupted = false ∧
    indicates_dead_stream ErrorKind.Other = false ∧
    indicates_dead_stream ErrorKind.UnexpectedEof = false := by
  decide

/-- C8: an `AddStream` whose first or second `try_clone()` fails is logged at
ERROR and abandoned with no partial state: the pool and its writer map are
returned unchanged and no reader is spawned. -/
theorem c8_add_stream_clone_failure_aborts {σ : Type} (pool : StreamHandlerPool)
    (e : ErrorKind) (rest : List (Except ErrorKind ClonedStream)) (cs : ClonedStream)
    (op : Option Nat) (fs : List (DiscriminatorFactory σ)) :
    (handleAdd pool
        { try_clone_results := Except.error e :: rest, origin_port := op,
          discriminator_factories := fs } =
      { pool := Except.ok (pool, [Event.logErrorCloneRead e]), spawned := none }) ∧
    (handleAdd pool
        { try_clone_results := Except.ok cs :: Except.error e :: rest,
          origin_port := op, discriminator_factories := fs } =
      { pool := Except.ok (pool, [Event.logErrorCloneWrite e]), spawned := none }) :=
  ⟨rfl, rfl⟩

/-- C9: a read error of a benign kind (neither dead-stream nor timeout-like)
produces exactly a WARN log and the loop continues with unchanged state, so
no `RemoveStream` and no terminal `InboundClientData` result from it. -/
theorem c9_benign_read_error_warns_and_continues {σ : Type} (D : DiscriminatorModel σ)
    (key : StreamKey) (op : Option Nat) (s : σ) (kind : ErrorKind)
    (rest : List ReadResult)
    (htimeout : indicates_timeout kind = false)
    (hdead : indicates_dead_stream kind = false) :
    StreamReaderReal.handle_traffic
        { stream := ReadResult.err kind :: rest, stream_key := key,
          origin_port := op, discModel := D, discState := s } =
      Event.logWarnReadError kind :: StreamReaderReal.handle_traffic
        { stream := rest, stream_key := key, origin_port := op,
          discModel := D, discState := s } := by
  simp [StreamReaderReal.handle_traffic, handleTrafficLoop, htimeout, hdead]

/-- C9 witness: an `Other` read error on a concrete reader warns and lets the
following read be processed. -/
theorem c9_benign_read_error_witness :
    StreamReaderReal.handle_traffic
        { stream := [ReadResult.err ErrorKind.Other, ReadResult.ok [9]],
          stream_key := { ip := 16909060, port := 5678 }, origin_port := some 4321,
          discModel := passThroughDisc, discState := [] } =
      Event.logWarnReadError ErrorKind.Other :: StreamReaderReal.handle_traffic
        { stream := [ReadResult.ok [9]], stream_key := { ip := 16909060, port := 5678 },
          origin_port := some 4321, discModel := passThroughDisc, discState := [] } :=
  c9_benign_read_error_warns_and_continues passThroughDisc { ip := 16909060, port := 5678 }
    (some 4321) [] ErrorKind.Other [ReadResult.ok [9]] (by decide) (by decide)

/-- C10: after both `try_clone()` calls succeed, a `peer_addr()` failure is
not handled like a clone failure (no ERROR log, no clean abort): when the
write-side clone has no peer address the pool handler itself panics with
"Internal error: no peer address preparing StreamWriter" and spawns nothing;
when the write-side clone is fine but the read-side clone has no peer
address, the spawned reader thread panics with "Internal error: no peer
address creating StreamReaderReal". -/
theorem c10_peer_addr_failure_panics {σ : Type} (pool : StreamHandlerPool)
    (rs ws : ClonedStream) (op : Option Nat) (fs : List (DiscriminatorFactory σ))
    (e : ErrorKind) :
    (ws.peer_addr_result = Except.error e →
      handleAdd pool
          { try_clone_results := [Except.ok rs, Except.ok ws],
            origin_port := op, discriminator_factories := fs } =
        { pool := Except.error msgNoPeerWriter, spawned := none }) ∧
    (∀ sa : SocketAddr, ws.peer_addr_result = Except.ok sa →
      rs.peer_addr_result = Except.error e →
      (handleAdd pool
          { try_clone_results := [Except.ok rs, Except.ok ws],
            origin_port := op, discriminator_factories := fs }).spawned =
        some (Except.error msgNoPeerReader)) := by
  constructor
  · intro h
    simp [handleAdd, setUpStreamWriter, h]
  · intro sa hw hr
    simp [handleAdd, setUpStreamWriter, hw, StreamReaderReal.new, hr]

/-- C10 witness: concrete streams with and without a peer address, in both
failure positions. -/
theorem c10_peer_addr_failure_panics_witness :
    (handleAdd { stream_writers := [] }
        { try_clone_results := [Except.ok goodStream, Except.ok peerlessStream],
          origin_port := none,
          discriminator_factories := ([] : List (DiscriminatorFactory (List Nat))) } =
      { pool := Except.error msgNoPeerWriter, spawned := none }) ∧
    ((handleAdd { stream_writers := [] }
        { try_clone_results := [Except.ok peerlessStream, Except.ok goodStream],
          origin_port := none,
          discriminator_factories := ([] : List (DiscriminatorFactory (List Nat))) }).spawned =
      some (Except.error msgNoPeerReader)) :=
  ⟨(c10_peer_addr_failure_panics { stream_writers := [] } goodStream peerlessStream none []
      ErrorKind.NotConnected).1 rfl,
   (c10_peer_addr_failure_panics { stream_writers := [] } peerlessStream goodStream none []
      ErrorKind.NotConnected).2 { ip := 5, port := 6 } rfl rfl⟩

end SubstratumNode
